import Mathlib

/-! The `lurch` server configuration record.

A shallow embedding of `src/structs/machines/helpers/lurch/server.h` and
`server.c`: the `struct Server` record and `server_constructor`, with the
machine integers of the C code written as `Int`/`Nat` and every implicit
conversion written as an explicit reduction modulo a power of two.

The C function declares `struct Server server;` without an initialiser and
then assigns fields one by one.  The record therefore starts with whatever
the storage held before; the embedding makes that prior content an explicit
argument (`uninit`) and every assignment a record update, so a field the
body never assigns keeps its prior content.
-/

set_option linter.unusedVariables false

namespace Lurch

/-! ## The host platform -/

/-- Properties of the host that the system headers fix and the repository
does not: byte order, the width of `u_long`, and the width of `sa_family_t`.
The C standard gives `unsigned long` at least 32 bits and every integer type
at least 8. -/
structure Host where
  littleEndian : Bool
  ulongBits : Nat
  familyBits : Nat
  ulong_ge : 32 ≤ ulongBits
  family_ge : 8 ≤ familyBits

/-- Linux on x86-64: little-endian, 64-bit `u_long`, `sa_family_t` is
`unsigned short`. -/
def linux_x86_64 : Host :=
  { littleEndian := true, ulongBits := 64, familyBits := 16,
    ulong_ge := by decide, family_ge := by decide }

/-- A big-endian host with 32-bit `u_long` and 16-bit `sa_family_t`. -/
def bigEndian32 : Host :=
  { littleEndian := false, ulongBits := 32, familyBits := 16,
    ulong_ge := by decide, family_ge := by decide }

/-- Smallest value of a C `int` (32 bits, two's complement). -/
def INT_MIN : Int := -2147483648

/-- Largest value of a C `int`. -/
def INT_MAX : Int := 2147483647

/-- The values a C `int` argument can hold. -/
def isInt (x : Int) : Prop := INT_MIN ≤ x ∧ x ≤ INT_MAX

instance (x : Int) : Decidable (isInt x) := by
  unfold isInt; infer_instance

/-- The values a `u_long` argument can hold on the host. -/
def isULong (host : Host) (x : Nat) : Prop := x < 2 ^ host.ulongBits

instance (host : Host) (x : Nat) : Decidable (isULong host x) := by
  unfold isULong; infer_instance

/-- The constant `AF_INET` of `<sys/socket.h>`. -/
def AF_INET : Int := 2

/-- The constant `SOCK_STREAM` of `<sys/socket.h>`. -/
def SOCK_STREAM : Int := 1

/-- The constant `INADDR_ANY` of `<netinet/in.h>`. -/
def INADDR_ANY : Nat := 0

/-! ## Integer conversions and byte order -/

/-- Conversion of an `int` to `uint16_t` (the parameter type of `htons`):
reduction modulo `2^16`. -/
def toUint16 (x : Int) : Nat := (x % 65536).toNat

/-- Conversion of a `u_long` to `uint32_t` (the parameter type of `htonl`):
reduction modulo `2^32`. -/
def toUint32 (x : Nat) : Nat := x % 4294967296

/-- Conversion of an `int` to `sa_family_t`, an unsigned type of
`host.familyBits` bits: reduction modulo `2^familyBits`. -/
def toFamily (host : Host) (x : Int) : Nat := (x % (2 : Int) ^ host.familyBits).toNat

/-- Exchange of the two bytes of a 16-bit value. -/
def bswap16 (x : Nat) : Nat := (x % 256) * 256 + (x / 256) % 256

/-- Reversal of the four bytes of a 32-bit value. -/
def bswap32 (x : Nat) : Nat :=
  (x % 256) * 16777216 + ((x / 256) % 256) * 65536
    + ((x / 65536) % 256) * 256 + (x / 16777216) % 256

/-- Modelled from the spec: `htons` is a function of the system header
`<netinet/in.h>`, not of the repository. It converts a 16-bit value from
host to network byte order: a no-op on big-endian hosts, a byte swap on
little-endian hosts. -/
def htons (host : Host) (x : Nat) : Nat :=
  if host.littleEndian then bswap16 x else x

/-- Modelled from the spec: `htonl` is a function of the system header
`<netinet/in.h>`, not of the repository. It converts a 32-bit value from
host to network byte order under the same rule as `htons`. -/
def htonl (host : Host) (x : Nat) : Nat :=
  if host.littleEndian then bswap32 x else x

/-- The `n` low-order bytes of `v`, most significant first. -/
def bytesBE : Nat → Nat → List Nat
  | 0, _ => []
  | n + 1, v => (v / 256 ^ n) % 256 :: bytesBE n v

/-- The bytes an `n`-byte unsigned object of value `v` occupies in the
host's memory, lowest address first. -/
def memoryBytes (host : Host) (n v : Nat) : List Nat :=
  if host.littleEndian then (bytesBE n v).reverse else bytesBE n v

/-! ## The records -/

/-- The record `struct in_addr` of `<netinet/in.h>`. -/
structure in_addr where
  s_addr : Nat
  deriving DecidableEq, Repr

/-- The record `struct sockaddr_in` of `<netinet/in.h>`: family, port,
address, and the padding bytes `sin_zero` that fill the record up to the
size of `struct sockaddr`. -/
structure sockaddr_in where
  sin_family : Nat
  sin_port : Nat
  sin_addr : in_addr
  sin_zero : List Nat
  deriving DecidableEq, Repr

/-- The record `struct Server` of `server.h`. A function pointer is its
address, `0` being the null pointer. -/
structure Server where
  domain : Int
  service : Int
  protocol : Int
  interface : Nat
  port : Int
  backlog : Int
  address : sockaddr_in
  launch : Nat
  deriving DecidableEq, Repr

/-- The function `server_constructor` of `server.c`. `uninit` is the content
of the automatic object `server` before the first assignment; the statements
of the body follow in order. -/
def server_constructor (host : Host) (uninit : Server)
    (domain service protocol : Int) (interface : Nat) (port backlog : Int)
    (launch : Nat) : Server :=
  let server := uninit
  let server := { server with domain := domain }
  let server := { server with service := service }
  let server := { server with protocol := protocol }
  let server := { server with interface := interface }
  let server := { server with port := port }
  let server := { server with backlog := backlog }
  let server := { server with address := { server.address with sin_family := toFamily host domain } }
  let server := { server with address := { server.address with sin_port := htons host (toUint16 port) } }
  let server := { server with address := { server.address with sin_addr := { server.address.sin_addr with s_addr := htonl host (toUint32 interface) } } }
  server

/-- Prior storage content: every byte zero. -/
def zeroStorage : Server :=
  { domain := 0, service := 0, protocol := 0, interface := 0, port := 0, backlog := 0,
    address := { sin_family := 0, sin_port := 0, sin_addr := { s_addr := 0 },
                 sin_zero := [0, 0, 0, 0, 0, 0, 0, 0] },
    launch := 0 }

/-- Prior storage content left by an earlier stack frame, with a stale
pointer in the `launch` slot and nonzero bytes in the padding. -/
def staleStorage : Server :=
  { domain := 7, service := -1, protocol := 3, interface := 99, port := 1234, backlog := 5,
    address := { sin_family := 10, sin_port := 4660, sin_addr := { s_addr := 305419896 },
                 sin_zero := [1, 2, 3, 4, 5, 6, 7, 8] },
    launch := 3735928559 }

/-! ## Conversion and byte-order lemmas -/

theorem toUint16_lt (x : Int) : toUint16 x < 65536 := by
  unfold toUint16; omega

theorem toUint16_cast (x : Int) : (toUint16 x : Int) = x % 65536 := by
  unfold toUint16; omega

theorem toUint16_hi (x : Int) : toUint16 x / 256 = ((x / 256) % 256).toNat := by
  unfold toUint16; omega

theorem toUint16_lo (x : Int) : toUint16 x % 256 = (x % 256).toNat := by
  unfold toUint16; omega

theorem toUint16_add_mul (x k : Int) : toUint16 (x + 65536 * k) = toUint16 x := by
  unfold toUint16; omega

theorem toUint32_lt (x : Nat) : toUint32 x < 4294967296 := by
  unfold toUint32; omega

theorem toFamily_cast (host : Host) (x : Int) :
    (toFamily host x : Int) = x % (2 : Int) ^ host.familyBits := by
  unfold toFamily
  exact Int.toNat_of_nonneg (Int.emod_nonneg _ (by positivity))

theorem toFamily_of_range (host : Host) (x : Int) (h0 : 0 ≤ x)
    (h1 : x < (2 : Int) ^ host.familyBits) : (toFamily host x : Int) = x := by
  rw [toFamily_cast]
  exact Int.emod_eq_of_lt h0 h1

theorem two_pow_familyBits_ge (host : Host) : (256 : Int) ≤ (2 : Int) ^ host.familyBits := by
  have h : (2 : Int) ^ 8 ≤ (2 : Int) ^ host.familyBits :=
    pow_le_pow_right₀ (by norm_num) host.family_ge
  simpa using h

theorem bswap16_bytes (x : Nat) (hx : x < 65536) :
    bswap16 x / 256 % 256 = x % 256 ∧ bswap16 x % 256 = x / 256 := by
  unfold bswap16
  have hh : x / 256 < 256 := by omega
  have hl : x % 256 < 256 := by omega
  generalize x / 256 = h at *
  generalize x % 256 = l at *
  constructor <;> omega

theorem bswap32_bytes (x : Nat) (hx : x < 4294967296) :
    bswap32 x / 16777216 % 256 = x % 256 ∧ bswap32 x / 65536 % 256 = x / 256 % 256 ∧
    bswap32 x / 256 % 256 = x / 65536 % 256 ∧ bswap32 x % 256 = x / 16777216 := by
  unfold bswap32
  have h3 : x / 16777216 < 256 := by omega
  have h3m : x / 16777216 % 256 = x / 16777216 := by omega
  have h2 : x / 65536 % 256 < 256 := by omega
  have h1 : x / 256 % 256 < 256 := by omega
  have h0 : x % 256 < 256 := by omega
  rw [h3m]
  generalize x / 16777216 = b3 at *
  generalize x / 65536 % 256 = b2 at *
  generalize x / 256 % 256 = b1 at *
  generalize x % 256 = b0 at *
  refine ⟨?_, ?_, ?_, ?_⟩ <;> omega

/-- On either byte order, the memory image of `htons host x` is the high
byte of `x` followed by its low byte. -/
theorem memoryBytes_htons (host : Host) (x : Nat) (hx : x < 65536) :
    memoryBytes host 2 (htons host x) = [x / 256, x % 256] := by
  obtain ⟨hhi, hlo⟩ := bswap16_bytes x hx
  unfold memoryBytes htons
  cases h : host.littleEndian
  · simp [bytesBE]; omega
  · simp [bytesBE, hhi, hlo]

/-- On either byte order, the memory image of `htonl host x` is the four
bytes of `x`, most significant first. -/
theorem memoryBytes_htonl (host : Host) (x : Nat) (hx : x < 4294967296) :
    memoryBytes host 4 (htonl host x)
      = [x / 16777216, (x / 65536) % 256, (x / 256) % 256, x % 256] := by
  obtain ⟨h3, h2, h1, h0⟩ := bswap32_bytes x hx
  unfold memoryBytes htonl
  cases h : host.littleEndian
  · simp [bytesBE]; omega
  · simp [bytesBE, h3, h2, h1, h0]

/-! ## What the body assigns -/

theorem server_constructor_address (host : Host) (uninit : Server)
    (domain service protocol : Int) (interface : Nat) (port backlog : Int) (launch : Nat) :
    (server_constructor host uninit domain service protocol interface port backlog launch).address
      = { sin_family := toFamily host domain,
          sin_port := htons host (toUint16 port),
          sin_addr := { s_addr := htonl host (toUint32 interface) },
          sin_zero := uninit.address.sin_zero } := rfl

theorem server_constructor_launch (host : Host) (uninit : Server)
    (domain service protocol : Int) (interface : Nat) (port backlog : Int) (launch : Nat) :
    (server_constructor host uninit domain service protocol interface port backlog launch).launch
      = uninit.launch := rfl

/-! ## Scalar fields -/

/-- C1: for every input, the domain, service, protocol, interface, port and
backlog fields of the value returned by `server_constructor` equal the
corresponding inputs; the port and interface fields hold the host-order
inputs, not their network-order conversions. -/
theorem server_constructor_scalar_fields (host : Host) (uninit : Server)
    (domain service protocol : Int) (interface : Nat) (port backlog : Int) (launch : Nat) :
    (server_constructor host uninit domain service protocol interface port backlog
        launch).domain = domain ∧
    (server_constructor host uninit domain service protocol interface port backlog
        launch).service = service ∧
    (server_constructor host uninit domain service protocol interface port backlog
        launch).protocol = protocol ∧
    (server_constructor host uninit domain service protocol interface port backlog
        launch).interface = interface ∧
    (server_constructor host uninit domain service protocol interface port backlog
        launch).port = port ∧
    (server_constructor host uninit domain service protocol interface port backlog
        launch).backlog = backlog :=
  ⟨rfl, rfl, rfl, rfl, rfl, rfl⟩

/-! ## The callback -/

/-- C2: the claim says the launch field of the result equals the callback
passed as seventh argument. The body of `server_constructor` has no
assignment to `server.launch`: at the inputs `(AF_INET, SOCK_STREAM, 0,
INADDR_ANY, 8080, 10, 4198400)`, with zeroed prior storage, the launch field
of the result is the null pointer left in the storage, not the callback. -/
theorem server_constructor_launch_not_copied :
    (server_constructor linux_x86_64 zeroStorage AF_INET SOCK_STREAM 0 INADDR_ANY 8080 10
        4198400).launch = 0 ∧
    (server_constructor linux_x86_64 zeroStorage AF_INET SOCK_STREAM 0 INADDR_ANY 8080 10
        4198400).launch ≠ 4198400 := by
  decide

/-! ## The address record -/

/-- C3: for every port, the two bytes of `address.sin_port` in memory order
are the high byte of the port (bits 15..8) followed by its low byte (bits
7..0); on a big-endian host the stored value is the 16-bit value of the port
itself, on a little-endian host it is the byte swap of that value. -/
theorem sin_port_network_order (host : Host) (uninit : Server)
    (domain service protocol : Int) (interface : Nat) (port backlog : Int) (launch : Nat) :
    memoryBytes host 2
        (server_constructor host uninit domain service protocol interface port backlog
          launch).address.sin_port
      = [((port / 256) % 256).toNat, (port % 256).toNat] ∧
    (host.littleEndian = false →
      ((server_constructor host uninit domain service protocol interface port backlog
          launch).address.sin_port : Int) = port % 65536) ∧
    (host.littleEndian = true →
      (server_constructor host uninit domain service protocol interface port backlog
          launch).address.sin_port = bswap16 (port % 65536).toNat) ∧
    (host.littleEndian = false → 0 ≤ port → port < 65536 →
      ((server_constructor host uninit domain service protocol interface port backlog
          launch).address.sin_port : Int) = port) := by
  rw [server_constructor_address]
  refine ⟨?_, ?_, ?_, ?_⟩
  · show memoryBytes host 2 (htons host (toUint16 port)) = _
    rw [memoryBytes_htons host _ (toUint16_lt port), toUint16_hi, toUint16_lo]
  · intro h
    show ((htons host (toUint16 port) : Nat) : Int) = _
    simp [htons, h, toUint16_cast]
  · intro h
    show htons host (toUint16 port) = _
    simp [htons, h, toUint16]
  · intro h h0 h1
    show ((htons host (toUint16 port) : Nat) : Int) = _
    simp only [htons, h, toUint16_cast]
    simp only [Bool.false_eq_true, if_false, toUint16_cast]
    omega

/-- Witness for C3: port 8080 on a little-endian and on a big-endian host. -/
theorem sin_port_network_order_witness :
    memoryBytes linux_x86_64 2
        (server_constructor linux_x86_64 zeroStorage AF_INET SOCK_STREAM 0 INADDR_ANY 8080 10
          0).address.sin_port = [31, 144] ∧
    (server_constructor linux_x86_64 zeroStorage AF_INET SOCK_STREAM 0 INADDR_ANY 8080 10
          0).address.sin_port = 36895 ∧
    ((server_constructor bigEndian32 zeroStorage AF_INET SOCK_STREAM 0 INADDR_ANY 8080 10
          0).address.sin_port : Int) = 8080 :=
  ⟨(sin_port_network_order linux_x86_64 zeroStorage AF_INET SOCK_STREAM 0 INADDR_ANY 8080 10
      0).1,
   (sin_port_network_order linux_x86_64 zeroStorage AF_INET SOCK_STREAM 0 INADDR_ANY 8080 10
      0).2.2.1 rfl,
   (sin_port_network_order bigEndian32 zeroStorage AF_INET SOCK_STREAM 0 INADDR_ANY 8080 10
      0).2.2.2 rfl (by decide) (by decide)⟩

/-- C4: for every interface value, the four bytes of
`address.sin_addr.s_addr` in memory order are the bytes of the interface's
low 32 bits, most significant first; on a big-endian host the stored value
is that 32-bit value itself, on a little-endian host its byte reversal. -/
theorem s_addr_network_order (host : Host) (uninit : Server)
    (domain service protocol : Int) (interface : Nat) (port backlog : Int) (launch : Nat) :
    memoryBytes host 4
        (server_constructor host uninit domain service protocol interface port backlog
          launch).address.sin_addr.s_addr
      = [(interface / 16777216) % 256, (interface / 65536) % 256,
         (interface / 256) % 256, interface % 256] ∧
    (host.littleEndian = false →
      (server_constructor host uninit domain service protocol interface port backlog
          launch).address.sin_addr.s_addr = interface % 4294967296) ∧
    (host.littleEndian = true →
      (server_constructor host uninit domain service protocol interface port backlog
          launch).address.sin_addr.s_addr = bswap32 (interface % 4294967296)) ∧
    (host.littleEndian = false → interface < 4294967296 →
      (server_constructor host uninit domain service protocol interface port backlog
          launch).address.sin_addr.s_addr = interface) := by
  rw [server_constructor_address]
  refine ⟨?_, ?_, ?_, ?_⟩
  · show memoryBytes host 4 (htonl host (toUint32 interface)) = _
    rw [memoryBytes_htonl host _ (toUint32_lt interface)]
    unfold toUint32
    have e3 : interface % 4294967296 / 16777216 = interface / 16777216 % 256 := by omega
    have e2 : interface % 4294967296 / 65536 % 256 = interface / 65536 % 256 := by omega
    have e1 : interface % 4294967296 / 256 % 256 = interface / 256 % 256 := by omega
    have e0 : interface % 4294967296 % 256 = interface % 256 := by omega
    rw [e3, e2, e1, e0]
  · intro h
    show htonl host (toUint32 interface) = _
    simp [htonl, h, toUint32]
  · intro h
    show htonl host (toUint32 interface) = _
    simp [htonl, h, toUint32]
  · intro h hlt
    show htonl host (toUint32 interface) = _
    simp only [htonl, h, toUint32]
    simp only [Bool.false_eq_true, if_false]
    omega

/-- Witness for C4: interface 192.168.1.1 on a little-endian and on a
big-endian host. -/
theorem s_addr_network_order_witness :
    memoryBytes linux_x86_64 4
        (server_constructor linux_x86_64 zeroStorage AF_INET SOCK_STREAM 0 3232235777 8080 10
          0).address.sin_addr.s_addr = [192, 168, 1, 1] ∧
    (server_constructor linux_x86_64 zeroStorage AF_INET SOCK_STREAM 0 3232235777 8080 10
          0).address.sin_addr.s_addr = 16885952 ∧
    (server_constructor bigEndian32 zeroStorage AF_INET SOCK_STREAM 0 3232235777 8080 10
          0).address.sin_addr.s_addr = 3232235777 :=
  ⟨(s_addr_network_order linux_x86_64 zeroStorage AF_INET SOCK_STREAM 0 3232235777 8080 10
      0).1,
   (s_addr_network_order linux_x86_64 zeroStorage AF_INET SOCK_STREAM 0 3232235777 8080 10
      0).2.2.1 rfl,
   (s_addr_network_order bigEndian32 zeroStorage AF_INET SOCK_STREAM 0 3232235777 8080 10
      0).2.2.2 rfl (by decide)⟩

/-- C5, as stated, fails: `sin_family` has the type `sa_family_t`, narrower
than `int`, so the assignment reduces the domain. On Linux x86-64 the valid
`int` domains 65538 and -1 give families 2 and 65535. -/
theorem sin_family_ne_domain :
    isInt 65538 ∧ isInt (-1) ∧
    (server_constructor linux_x86_64 zeroStorage 65538 SOCK_STREAM 0 INADDR_ANY 8080 10
        4198400).address.sin_family = 2 ∧
    ((server_constructor linux_x86_64 zeroStorage 65538 SOCK_STREAM 0 INADDR_ANY 8080 10
        4198400).address.sin_family : Int) ≠ 65538 ∧
    ((server_constructor linux_x86_64 zeroStorage 65538 SOCK_STREAM 0 INADDR_ANY 8080 10
        4198400).address.sin_family : Int) ≠
      (server_constructor linux_x86_64 zeroStorage 65538 SOCK_STREAM 0 INADDR_ANY 8080 10
        4198400).domain ∧
    ((server_constructor linux_x86_64 zeroStorage (-1) SOCK_STREAM 0 INADDR_ANY 8080 10
        4198400).address.sin_family : Int) ≠ -1 := by
  decide

/-- C5, amended: for every `int` domain, `address.sin_family` is the domain
input reduced modulo `2^w`, `w` the width of `sa_family_t`, and so lies below
`2^w`; for every domain in the range of `sa_family_t` (`0 ≤ domain < 2^w`)
it equals the domain input and the result's own domain field. -/
theorem sin_family_eq_domain (host : Host) (uninit : Server)
    (domain service protocol : Int) (interface : Nat) (port backlog : Int) (launch : Nat) :
    ((server_constructor host uninit domain service protocol interface port backlog
        launch).address.sin_family : Int) = domain % (2 : Int) ^ host.familyBits ∧
    (server_constructor host uninit domain service protocol interface port backlog
        launch).address.sin_family < 2 ^ host.familyBits ∧
    (0 ≤ domain → domain < (2 : Int) ^ host.familyBits →
      ((server_constructor host uninit domain service protocol interface port backlog
          launch).address.sin_family : Int) = domain ∧
      ((server_constructor host uninit domain service protocol interface port backlog
          launch).address.sin_family : Int) =
        (server_constructor host uninit domain service protocol interface port backlog
          launch).domain) := by
  rw [server_constructor_address]
  refine ⟨toFamily_cast host domain, ?_, ?_⟩
  · have hc := toFamily_cast host domain
    have hpos : (0 : Int) < (2 : Int) ^ host.familyBits := by positivity
    have hlt : (toFamily host domain : Int) < (2 : Int) ^ host.familyBits := by
      rw [hc]; exact Int.emod_lt_of_pos _ hpos
    show toFamily host domain < 2 ^ host.familyBits
    exact_mod_cast hlt
  · intro h0 h1
    exact ⟨toFamily_of_range host domain h0 h1, toFamily_of_range host domain h0 h1⟩

/-- Witness for C5: on Linux x86-64 the domain `AF_INET` is stored as given,
and the out-of-range domains 65538 and -1 are stored as 2 and 65535. -/
theorem sin_family_eq_domain_witness :
    ((server_constructor linux_x86_64 staleStorage AF_INET SOCK_STREAM 0 INADDR_ANY 8080 10
        4198400).address.sin_family : Int) = AF_INET ∧
    ((server_constructor linux_x86_64 staleStorage 65538 SOCK_STREAM 0 INADDR_ANY 8080 10
        4198400).address.sin_family : Int) = 2 ∧
    ((server_constructor linux_x86_64 staleStorage (-1) SOCK_STREAM 0 INADDR_ANY 8080 10
        4198400).address.sin_family : Int) = 65535 :=
  ⟨((sin_family_eq_domain linux_x86_64 staleStorage AF_INET SOCK_STREAM 0 INADDR_ANY 8080 10
      4198400).2.2 (by decide) (by decide)).1,
   (sin_family_eq_domain linux_x86_64 staleStorage 65538 SOCK_STREAM 0 INADDR_ANY 8080 10
      4198400).1,
   (sin_family_eq_domain linux_x86_64 staleStorage (-1) SOCK_STREAM 0 INADDR_ANY 8080 10
      4198400).1⟩

/-- C6: for the inputs `(AF_INET, SOCK_STREAM, 0, INADDR_ANY, 8080, 10)` and
any callback, on any host, the address record has family `AF_INET`, port
bytes `[0x1F, 0x90]` in memory order and four zero address bytes. -/
theorem example_8080_address (host : Host) (uninit : Server) (launch : Nat) :
    ((server_constructor host uninit AF_INET SOCK_STREAM 0 INADDR_ANY 8080 10
        launch).address.sin_family : Int) = AF_INET ∧
    memoryBytes host 2
        (server_constructor host uninit AF_INET SOCK_STREAM 0 INADDR_ANY 8080 10
          launch).address.sin_port = [0x1F, 0x90] ∧
    memoryBytes host 4
        (server_constructor host uninit AF_INET SOCK_STREAM 0 INADDR_ANY 8080 10
          launch).address.sin_addr.s_addr = [0, 0, 0, 0] := by
  rw [server_constructor_address]
  refine ⟨?_, ?_, ?_⟩
  · have h := two_pow_familyBits_ge host
    exact toFamily_of_range host AF_INET (by decide) (by unfold AF_INET; omega)
  · show memoryBytes host 2 (htons host (toUint16 8080)) = _
    rw [memoryBytes_htons host _ (toUint16_lt 8080)]
    rfl
  · show memoryBytes host 4 (htonl host (toUint32 INADDR_ANY)) = _
    rw [memoryBytes_htonl host _ (toUint32_lt INADDR_ANY)]
    rfl

/-! ## Determinism -/

/-- C7: the claim says two calls with identical inputs return equal values
in every field, launch included. The body leaves `server.launch`
unassigned, so two calls with the same seven arguments whose automatic
storage held different bytes return values that differ in the launch field. -/
theorem server_constructor_depends_on_storage :
    server_constructor linux_x86_64 zeroStorage AF_INET SOCK_STREAM 0 INADDR_ANY 8080 10 4198400
      ≠ server_constructor linux_x86_64 staleStorage AF_INET SOCK_STREAM 0 INADDR_ANY 8080 10
          4198400 ∧
    (server_constructor linux_x86_64 zeroStorage AF_INET SOCK_STREAM 0 INADDR_ANY 8080 10
        4198400).launch
      ≠ (server_constructor linux_x86_64 staleStorage AF_INET SOCK_STREAM 0 INADDR_ANY 8080 10
          4198400).launch := by
  decide

/-! ## Totality -/

/-- C8: `server_constructor` returns a `Server` for every combination of
inputs, with no range assumed for any of them, and that value is always the
one the single straight-line path builds: the six scalar inputs as given,
the address members converted from domain, port and interface, and prior
storage content in whatever the body does not assign. No input selects
another result: a port of -1 or 70000, an unknown domain, service and
protocol, a negative backlog and a null callback each go through the same
assignments. -/
theorem server_constructor_total (host : Host) (uninit : Server)
    (domain service protocol : Int) (interface : Nat) (port backlog : Int) (launch : Nat) :
    server_constructor host uninit domain service protocol interface port backlog launch
      = { domain := domain, service := service, protocol := protocol,
          interface := interface, port := port, backlog := backlog,
          address := { sin_family := toFamily host domain,
                       sin_port := htons host (toUint16 port),
                       sin_addr := { s_addr := htonl host (toUint32 interface) },
                       sin_zero := uninit.address.sin_zero },
          launch := uninit.launch } ∧
    server_constructor linux_x86_64 zeroStorage 9999 (-7) 300 INADDR_ANY (-1) (-5) 0
      = { domain := 9999, service := -7, protocol := 300,
          interface := 0, port := -1, backlog := -5,
          address := { sin_family := 9999, sin_port := 65535,
                       sin_addr := { s_addr := 0 },
                       sin_zero := [0, 0, 0, 0, 0, 0, 0, 0] },
          launch := 0 } ∧
    server_constructor linux_x86_64 zeroStorage AF_INET SOCK_STREAM 0 INADDR_ANY 70000 10 0
      = { domain := 2, service := 1, protocol := 0,
          interface := 0, port := 70000, backlog := 10,
          address := { sin_family := 2, sin_port := 28689,
                       sin_addr := { s_addr := 0 },
                       sin_zero := [0, 0, 0, 0, 0, 0, 0, 0] },
          launch := 0 } :=
  ⟨rfl, by decide, by decide⟩

/-! ## The address record depends on three inputs -/

/-- C10: for every `int` port, `address.sin_port` is the network-byte-order
encoding of `port mod 65536`; ports that differ by a multiple of 65536 give
the same address port while the port field keeps each original value, as
8080 and 73616 do. -/
theorem sin_port_mod_65536 (host : Host) (uninit : Server)
    (domain service protocol : Int) (interface : Nat) (port backlog : Int) (launch : Nat)
    (k : Int) :
    (server_constructor host uninit domain service protocol interface port backlog
        launch).address.sin_port = htons host (port % 65536).toNat ∧
    memoryBytes host 2
        (server_constructor host uninit domain service protocol interface port backlog
          launch).address.sin_port = bytesBE 2 (port % 65536).toNat ∧
    (server_constructor host uninit domain service protocol interface (port + 65536 * k)
        backlog launch).address.sin_port
      = (server_constructor host uninit domain service protocol interface port backlog
          launch).address.sin_port ∧
    (server_constructor host uninit domain service protocol interface (port + 65536 * k)
        backlog launch).port = port + 65536 * k ∧
    (server_constructor host uninit domain service protocol interface 73616 backlog
        launch).address.sin_port
      = (server_constructor host uninit domain service protocol interface 8080 backlog
          launch).address.sin_port ∧
    (server_constructor host uninit domain service protocol interface 73616 backlog
        launch).port
      ≠ (server_constructor host uninit domain service protocol interface 8080 backlog
          launch).port := by
  simp only [server_constructor_address]
  refine ⟨rfl, ?_, ?_, rfl, ?_, ?_⟩
  · have hlt := toUint16_lt port
    rw [memoryBytes_htons host _ hlt]
    show _ = bytesBE 2 (toUint16 port)
    simp [bytesBE]
    omega
  · rw [toUint16_add_mul]
  · rfl
  · show (73616 : Int) ≠ 8080
    decide

/-! ## Interface reduction -/

/-- C11: on a host whose `u_long` is 64 bits wide, for every interface value
`address.sin_addr.s_addr` is the network-byte-order encoding of
`interface mod 2^32` while the interface field keeps the full input; at
`interface = 2^32` the interface field is non-zero and the four address
bytes are all zero. -/
theorem s_addr_mod_two_pow_32 (host : Host) (uninit : Server)
    (domain service protocol : Int) (interface : Nat) (port backlog : Int) (launch : Nat)
    (hw : host.ulongBits = 64) (hi : isULong host interface) :
    (server_constructor host uninit domain service protocol interface port backlog
        launch).address.sin_addr.s_addr = htonl host (interface % 4294967296) ∧
    memoryBytes host 4
        (server_constructor host uninit domain service protocol interface port backlog
          launch).address.sin_addr.s_addr = bytesBE 4 (interface % 4294967296) ∧
    (server_constructor host uninit domain service protocol interface port backlog
        launch).interface = interface ∧
    isULong host 4294967296 ∧
    (server_constructor host uninit domain service protocol 4294967296 port backlog
        launch).interface ≠ 0 ∧
    memoryBytes host 4
        (server_constructor host uninit domain service protocol 4294967296 port backlog
          launch).address.sin_addr.s_addr = [0, 0, 0, 0] := by
  simp only [server_constructor_address]
  refine ⟨rfl, ?_, rfl, ?_, ?_, ?_⟩
  · rw [memoryBytes_htonl host _ (toUint32_lt interface)]
    show _ = bytesBE 4 (toUint32 interface)
    have hlt := toUint32_lt interface
    simp [bytesBE]
    omega
  · unfold isULong
    rw [hw]
    norm_num
  · show (4294967296 : Nat) ≠ 0
    decide
  · rw [memoryBytes_htonl host _ (toUint32_lt 4294967296)]
    rfl

/-- Witness for C11: interface `2^32 + 192.168.1.1` on Linux x86-64, where
`u_long` has 64 bits: the address bytes are those of 192.168.1.1 and the
interface field keeps the full value. -/
theorem s_addr_mod_two_pow_32_witness :
    memoryBytes linux_x86_64 4
        (server_constructor linux_x86_64 zeroStorage AF_INET SOCK_STREAM 0 7527203073 8080 10
          0).address.sin_addr.s_addr = [192, 168, 1, 1] ∧
    (server_constructor linux_x86_64 zeroStorage AF_INET SOCK_STREAM 0 7527203073 8080 10
          0).interface = 7527203073 ∧
    (server_constructor linux_x86_64 zeroStorage AF_INET SOCK_STREAM 0 4294967296 8080 10
          0).interface ≠ 0 ∧
    memoryBytes linux_x86_64 4
        (server_constructor linux_x86_64 zeroStorage AF_INET SOCK_STREAM 0 4294967296 8080 10
          0).address.sin_addr.s_addr = [0, 0, 0, 0] :=
  ⟨(s_addr_mod_two_pow_32 linux_x86_64 zeroStorage AF_INET SOCK_STREAM 0 7527203073 8080 10 0
      rfl (by decide)).2.1,
   (s_addr_mod_two_pow_32 linux_x86_64 zeroStorage AF_INET SOCK_STREAM 0 7527203073 8080 10 0
      rfl (by decide)).2.2.1,
   (s_addr_mod_two_pow_32 linux_x86_64 zeroStorage AF_INET SOCK_STREAM 0 7527203073 8080 10 0
      rfl (by decide)).2.2.2.2.1,
   (s_addr_mod_two_pow_32 linux_x86_64 zeroStorage AF_INET SOCK_STREAM 0 7527203073 8080 10 0
      rfl (by decide)).2.2.2.2.2⟩

end Lurch
